import Mathlib

/-!
Shallow embedding of the self-healing infrastructure Lambda handlers
(`src/modules/self-healing-ec2/lambda/ec2_healing.py` and
`src/modules/self-healing-rds/lambda/rds_healing.py`).

External effects are made explicit:
* control-plane mutating calls (reboot/stop/start/modify/tag writes) are
  recorded in a `calls` trace, in the order the code issues them; a call is
  recorded even when it fails, since the request was made;
* calls to `send_notification` are recorded in a `notes` trace as tagged
  values whose constructors correspond one-to-one to the message strings
  built at the corresponding program points;
* fallibility of each AWS call is an oracle record of booleans (one per
  distinct client operation), standing for whether the corresponding
  `try` block raises;
* the read-only fetch of instance details is an `Option` input, and the
  RDS tag read (`list_tags_for_resource`) is an `Except` input.
Timestamps written into tags (`LastHealed`, `LastHealingAction`) carry no
decision logic and are not modelled beyond the tag-write call itself.
-/

namespace SelfHealing

/-!
String primitives. The Python code uses `str.lower`, `in`, `split('.')`,
`str.replace`, `str.endswith` and `int(...)`; these are re-implemented
here by structural recursion over the character list so that concrete
runs reduce inside the kernel. All strings this code base feeds into them
(AWS state names, instance classes, alarm names, tag values) are ASCII.
-/

/-- ASCII lower-casing of one character (what `str.lower` does on the
ASCII strings these handlers see). -/
def lowerChar (c : Char) : Char :=
  if 'A' ≤ c ∧ c ≤ 'Z' then Char.ofNat (c.toNat + 32) else c

/-- `s.lower()` on ASCII strings. -/
def strLower (s : String) : String := ⟨s.data.map lowerChar⟩

/-- Does `needle` occur as a contiguous sublist of `hay`? -/
def listContainsSub (needle : List Char) : List Char → Bool
  | [] => needle.isEmpty
  | c :: rest => needle.isPrefixOf (c :: rest) || listContainsSub needle rest

/-- Python `needle in hay` on strings. -/
def strContains (hay needle : String) : Bool :=
  listContainsSub needle.data hay.data

/-- `split` on one separator character (Python `s.split('.')` keeps empty
parts and always returns at least one part). -/
def splitOnChar (sep : Char) : List Char → List (List Char)
  | [] => [[]]
  | c :: rest =>
    let r := splitOnChar sep rest
    if c = sep then [] :: r
    else
      match r with
      | [] => [[c]]
      | h :: t => (c :: h) :: t

/-- Python `s.split('.')`. -/
def strSplitDot (s : String) : List String :=
  (splitOnChar '.' s.data).map (fun l => ⟨l⟩)

/-- Delete every occurrence of `needle` from `hay` (fuelled so that the
recursion is structural; `fuel = hay.length` suffices since each step
consumes at least one character). -/
def removeSubFuel (needle : List Char) : Nat → List Char → List Char
  | 0, _ => []
  | _, [] => []
  | fuel + 1, c :: rest =>
    if needle ≠ [] ∧ needle.isPrefixOf (c :: rest) then
      removeSubFuel needle fuel (rest.drop (needle.length - 1))
    else c :: removeSubFuel needle fuel rest

/-- Python `s.replace(needle, '')`. -/
def strRemoveAll (s needle : String) : String :=
  ⟨removeSubFuel needle.data s.data.length s.data⟩

/-- Python `s.endswith(t)`. -/
def strEndsWith (s t : String) : Bool :=
  t.data.reverse.isPrefixOf s.data.reverse

/-- The value of one decimal digit. -/
def digitVal (c : Char) : Option Nat :=
  if '0' ≤ c ∧ c ≤ '9' then some (c.toNat - 48) else none

/-- Parse a non-empty all-digit string. -/
def parseNatL (xs : List Char) : Option Nat :=
  match xs with
  | [] => none
  | _ =>
    xs.foldl
      (fun acc c =>
        match acc, digitVal c with
        | some a, some d => some (a * 10 + d)
        | _, _ => none)
      (some 0)

/-- Python `int(s)` on the plain decimal numerals (optionally signed) that
appear in tag values, with `none` for the `ValueError` case. -/
def parseIntL (s : String) : Option Int :=
  match s.data with
  | '-' :: rest => (parseNatL rest).map (fun n => -(n : Int))
  | xs => (parseNatL xs).map (fun n => (n : Int))

/-- Python `set(xs) == set(ys)` on lists of strings: same element sets,
insensitive to order and multiplicity. -/
def sameSet (xs ys : List String) : Bool :=
  xs.all (fun x => ys.contains x) && ys.all (fun y => xs.contains y)

/-- The inbound trigger payload, reduced to the two fields the handlers
inspect: `event['detail-type']` and `event['detail']['alarmName']`
(`none` models the key being absent). -/
structure TriggerEvent where
  detailType : Option String
  alarmName : Option String
deriving DecidableEq

/-! ## EC2 module (`ec2_healing.py`) -/

/-- Environment configuration of the EC2 lambda
(`MAX_HEALING_ATTEMPTS`, `ORIGINAL_AMI`, `ORIGINAL_INSTANCE_TYPE`,
`ORIGINAL_SECURITY_GROUPS`, `CUSTOM_HEALING_ACTIONS`). -/
structure Ec2Env where
  maxHealingAttempts : Int
  originalAmi : String
  originalInstanceType : String
  originalSecurityGroups : List String
  customHealingActions : String
deriving DecidableEq

/-- `TRANSITIONAL_STATES` from `ec2_healing.py`. -/
def transitionalStates : List String := ["pending", "stopping", "shutting-down"]

/-- The fields of the `describe_instances` snapshot that the handler reads. -/
structure Ec2Instance where
  instanceId : String
  state : String
  imageId : String
  instanceType : String
  securityGroups : List String
  tags : List (String × String)
deriving DecidableEq

/-- Success oracle for the EC2 client calls: each flag tells whether the
corresponding boto3 call raises inside its `try` block. -/
structure Ec2Ops where
  rebootOk : Bool
  stopOk : Bool
  startOk : Bool
  modifyTypeOk : Bool
  modifyGroupsOk : Bool
  createTagsOk : Bool
deriving DecidableEq

/-- Control-plane mutating calls issued by the EC2 lambda.
`createTags n` is the `create_tags` write that stores `HealingAttempts = n`
(plus the `LastHealed`/`LastHealingAction` timestamps). -/
inductive Ec2Call
  | createTags (attempts : Int)
  | rebootInstances
  | stopInstances
  | startInstances
  | modifyInstanceType (t : String)
  | modifyInstanceGroups (gs : List String)
deriving DecidableEq

/-- One drift finding of the EC2 drift check, in source order of the checks
(AMI, instance type, security groups). -/
inductive Ec2Finding
  | amiDrift (cur orig : String)
  | typeDrift (cur orig : String)
  | sgDrift (cur orig : List String)
deriving DecidableEq

/-- Entries of the `healing_actions` log built in `handle_config_drift`. -/
inductive Ec2HealAct
  | stoppingToFixType
  | changedType (cur orig : String)
  | startedAfterFix
  | typeFixError
  | restoredGroups (cur orig : List String)
  | groupsFixError
  | amiManual
deriving DecidableEq

/-- Calls to `send_notification` in `ec2_healing.py`, tagged by the message
built at the call site:
* `fetchFailed` — "Unable to retrieve details for instance ..."
* `maxAttemptsReached` — "Maximum healing attempts (...) reached ..."
* `transitionalDeferred st` — "Instance ... is in transitional state st. Healing deferred."
* `rebooted` — "Rebooted instance ... due to status check failure"
* `stoppingAfterFailedReboot` — "Stopping instance ... due to failed reboot attempt"
* `startedStopped` — "Started instance ... which was in stopped state"
* `noActionState st` — "Instance ... is in state st, no healing action taken"
* `customStopping` / `customStarting` / `customNotImplemented` / `customDefaultReboot`
  — the four `apply_custom_healing_action` messages
* `maintenanceSkip` — "Configuration drift detected for instance ..., but
  instance is in maintenance window. Skipping remediation."
* `driftDetected ds` — "Configuration drift detected for instance ...:" with
  the per-finding detail lines
* `healingReport acts` — "Healing actions for instance ...:" with the action log. -/
inductive Ec2Note
  | fetchFailed
  | maxAttemptsReached
  | transitionalDeferred (st : String)
  | rebooted
  | stoppingAfterFailedReboot
  | startedStopped
  | noActionState (st : String)
  | customStopping
  | customStarting
  | customNotImplemented
  | customDefaultReboot
  | maintenanceSkip
  | driftDetected (ds : List Ec2Finding)
  | healingReport (acts : List Ec2HealAct)
deriving DecidableEq

/-- Result of one EC2 lambda run: the returned status code and body string,
plus the traces of mutating control-plane calls and notifications. -/
structure Ec2Run where
  status : Nat
  body : String
  calls : List Ec2Call
  notes : List Ec2Note
deriving DecidableEq

/-- `determine_event_type` of `ec2_healing.py`. -/
def ec2DetermineEventType (e : TriggerEvent) : String :=
  if e.detailType = some "CloudWatch Alarm State Change" then "status_check_failure"
  else "config_drift"

/-- `get_healing_attempts` of `ec2_healing.py`: first `HealingAttempts` tag,
parsed as an integer, with 0 on absence or parse failure. -/
def ec2GetHealingAttempts (tags : List (String × String)) : Int :=
  match tags.find? (fun t => t.1 == "HealingAttempts") with
  | some t => (parseIntL t.2).getD 0
  | none => 0

/-- `apply_custom_healing_action` of `ec2_healing.py`. -/
def ec2ApplyCustomHealing (env : Ec2Env) (ops : Ec2Ops) : Ec2Run :=
  if env.customHealingActions = "stop_start" then
    if ops.stopOk then
      if ops.startOk then
        ⟨200, "Custom healing action (stop-start) completed",
          [.stopInstances, .startInstances], [.customStopping, .customStarting]⟩
      else
        ⟨500, "Failed to apply custom healing action",
          [.stopInstances, .startInstances], [.customStopping]⟩
    else
      ⟨500, "Failed to apply custom healing action", [.stopInstances], []⟩
  else if env.customHealingActions = "restore_from_backup" then
    ⟨501, "Custom healing action not implemented", [], [.customNotImplemented]⟩
  else
    if ops.rebootOk then
      ⟨200, "Default reboot healing action applied", [.rebootInstances], [.customDefaultReboot]⟩
    else
      ⟨500, "Failed to apply default healing action", [.rebootInstances], []⟩

/-- `handle_status_check_failure` of `ec2_healing.py`: increments the
attempt counter, then acts on the instance state (reboot with stop
fallback when running, start when stopped, otherwise no action). -/
def ec2HandleStatusCheckFailure (env : Ec2Env) (ops : Ec2Ops) (inst : Ec2Instance)
    (attempts : Int) : Ec2Run :=
  let incr := Ec2Call.createTags (attempts + 1)
  if inst.state = "running" then
    if env.customHealingActions ≠ "default" then
      let r := ec2ApplyCustomHealing env ops
      { r with calls := incr :: r.calls }
    else if ops.rebootOk then
      ⟨200, "Instance reboot initiated", [incr, .rebootInstances], [.rebooted]⟩
    else if ops.stopOk then
      ⟨200, "Instance stop initiated", [incr, .rebootInstances, .stopInstances],
        [.stoppingAfterFailedReboot]⟩
    else
      ⟨500, "Failed to heal instance", [incr, .rebootInstances, .stopInstances], []⟩
  else if inst.state = "stopped" then
    if ops.startOk then
      ⟨200, "Instance start initiated", [incr, .startInstances], [.startedStopped]⟩
    else
      ⟨500, "Failed to start instance", [incr, .startInstances], []⟩
  else
    ⟨200, "No healing action taken", [incr], [.noActionState inst.state]⟩

/-- The guard `if ORIGINAL_SECURITY_GROUPS and ORIGINAL_SECURITY_GROUPS[0]:`
— the list is non-empty and its first element is a non-empty string. -/
def ec2SgGuard (env : Ec2Env) : Bool :=
  match env.originalSecurityGroups with
  | [] => false
  | h :: _ => h != ""

/-- The drift findings computed by `handle_config_drift` in `ec2_healing.py`,
in source order of the checks: AMI first, then instance type, then security
groups (the latter compared as sets, and only when original groups are
configured). -/
def ec2DriftFindings (env : Ec2Env) (inst : Ec2Instance) : List Ec2Finding :=
  (if inst.imageId ≠ env.originalAmi then
    [Ec2Finding.amiDrift inst.imageId env.originalAmi] else []) ++
  (if inst.instanceType ≠ env.originalInstanceType then
    [Ec2Finding.typeDrift inst.instanceType env.originalInstanceType] else []) ++
  (if ec2SgGuard env ∧ sameSet inst.securityGroups env.originalSecurityGroups = false then
    [Ec2Finding.sgDrift inst.securityGroups env.originalSecurityGroups] else [])

/-- The `MaintenanceWindow` tag check of `handle_config_drift`: some tag with
key `MaintenanceWindow` whose value lowercases to `active`. -/
def ec2InMaintenance (tags : List (String × String)) : Bool :=
  tags.any (fun t => t.1 == "MaintenanceWindow" && strLower t.2 == "active")

/-- The instance-type remediation segment of `handle_config_drift` (stop →
modify → start when running; modify (+ start if stopped) otherwise), with
the calls issued and the `healing_actions` log entries appended. -/
def ec2FixTypeDrift (env : Ec2Env) (ops : Ec2Ops) (inst : Ec2Instance) :
    List Ec2Call × List Ec2HealAct :=
  if inst.instanceType ≠ env.originalInstanceType then
    if inst.state = "running" then
      if ops.stopOk = false then
        ([.stopInstances], [.typeFixError])
      else if ops.modifyTypeOk = false then
        ([.stopInstances, .modifyInstanceType env.originalInstanceType],
          [.stoppingToFixType, .typeFixError])
      else if ops.startOk = false then
        ([.stopInstances, .modifyInstanceType env.originalInstanceType, .startInstances],
          [.stoppingToFixType, .changedType inst.instanceType env.originalInstanceType,
            .typeFixError])
      else
        ([.stopInstances, .modifyInstanceType env.originalInstanceType, .startInstances],
          [.stoppingToFixType, .changedType inst.instanceType env.originalInstanceType,
            .startedAfterFix])
    else
      if ops.modifyTypeOk = false then
        ([.modifyInstanceType env.originalInstanceType], [.typeFixError])
      else if inst.state = "stopped" then
        if ops.startOk then
          ([.modifyInstanceType env.originalInstanceType, .startInstances],
            [.changedType inst.instanceType env.originalInstanceType, .startedAfterFix])
        else
          ([.modifyInstanceType env.originalInstanceType, .startInstances],
            [.changedType inst.instanceType env.originalInstanceType, .typeFixError])
      else
        ([.modifyInstanceType env.originalInstanceType],
          [.changedType inst.instanceType env.originalInstanceType])
  else ([], [])

/-- The security-group remediation segment of `handle_config_drift`. -/
def ec2FixSgDrift (env : Ec2Env) (ops : Ec2Ops) (inst : Ec2Instance) :
    List Ec2Call × List Ec2HealAct :=
  if ec2SgGuard env ∧ sameSet inst.securityGroups env.originalSecurityGroups = false then
    if ops.modifyGroupsOk then
      ([.modifyInstanceGroups env.originalSecurityGroups],
        [.restoredGroups inst.securityGroups env.originalSecurityGroups])
    else
      ([.modifyInstanceGroups env.originalSecurityGroups], [.groupsFixError])
  else ([], [])

/-- `handle_config_drift` of `ec2_healing.py`. -/
def ec2HandleConfigDrift (env : Ec2Env) (ops : Ec2Ops) (inst : Ec2Instance)
    (attempts : Int) : Ec2Run :=
  let fs := ec2DriftFindings env inst
  if fs = [] then
    ⟨200, "No configuration drift detected", [], []⟩
  else if ec2InMaintenance inst.tags then
    ⟨200, "Drift remediation skipped due to maintenance window", [], [.maintenanceSkip]⟩
  else
    let t := ec2FixTypeDrift env ops inst
    let g := ec2FixSgDrift env ops inst
    let amiActs := if inst.imageId ≠ env.originalAmi then [Ec2HealAct.amiManual] else []
    ⟨200, "Healing actions applied for configuration drift",
      Ec2Call.createTags (attempts + 1) :: (t.1 ++ g.1),
      [.driftDetected fs, .healingReport (t.2 ++ g.2 ++ amiActs)]⟩

/-- `lambda_handler` of `ec2_healing.py`. The `details` argument is the
result of `get_instance_details_with_retry` (`none` = fetch failed). -/
def ec2LambdaHandler (env : Ec2Env) (ops : Ec2Ops) (event : TriggerEvent)
    (details : Option Ec2Instance) : Ec2Run :=
  let eventType := ec2DetermineEventType event
  match details with
  | none => ⟨500, "Failed to retrieve instance details", [], [.fetchFailed]⟩
  | some inst =>
    let attempts := ec2GetHealingAttempts inst.tags
    if env.maxHealingAttempts ≤ attempts then
      ⟨429, "Maximum healing attempts reached", [], [.maxAttemptsReached]⟩
    else if inst.state ∈ transitionalStates then
      ⟨202, "Healing deferred due to transitional state", [], [.transitionalDeferred inst.state]⟩
    else if eventType = "status_check_failure" then
      ec2HandleStatusCheckFailure env ops inst attempts
    else if eventType = "config_drift" then
      ec2HandleConfigDrift env ops inst attempts
    else
      ⟨400, "Unknown event type", [], []⟩

/-! ## RDS module (`rds_healing.py`) -/

/-- Environment configuration of the RDS lambda
(`MAX_HEALING_ATTEMPTS`, `ORIGINAL_INSTANCE_CLASS`,
`ORIGINAL_ALLOCATED_STORAGE`, `ORIGINAL_ENGINE_VERSION`,
`BACKUP_VERIFICATION`). Storage sizes are the non-negative gigabyte
counts AWS reports, modelled as `Nat`. -/
structure RdsEnv where
  maxHealingAttempts : Int
  originalInstanceClass : String
  originalAllocatedStorage : Nat
  originalEngineVersion : String
  backupVerification : Bool
deriving DecidableEq

/-- The fields of the `describe_db_instances` snapshot that the handler
reads. -/
structure RdsInstance where
  dbInstanceId : String
  status : String
  instanceClass : String
  allocatedStorage : Nat
  engineVersion : String
  backupRetentionPeriod : Nat
deriving DecidableEq

/-- Success oracle for the RDS client calls. -/
structure RdsOps where
  rebootOk : Bool
  modifyClassOk : Bool
  modifyStorageOk : Bool
  addTagsOk : Bool
deriving DecidableEq

/-- Control-plane mutating calls issued by the RDS lambda. `addTags n` is
the `add_tags_to_resource` write that stores `HealingAttempts = n`. -/
inductive RdsCall
  | addTags (attempts : Int)
  | rebootDb
  | modifyDbClass (c : String)
  | modifyDbStorage (n : Nat)
deriving DecidableEq

/-- One drift finding of the RDS drift check, in source order of the checks
(instance class, allocated storage, engine version). -/
inductive RdsFinding
  | classDrift (cur orig : String)
  | storageDrift (cur orig : Nat)
  | engineDrift (cur orig : String)
deriving DecidableEq

/-- Entries of the `healing_actions` log built in the RDS
`handle_config_drift`. -/
inductive RdsHealAct
  | changedClass (cur orig : String)
  | classFixError
  | changedStorage (cur orig : Nat)
  | storageFixError
  | engineManual
deriving DecidableEq

/-- Calls to `send_notification` in `rds_healing.py`, tagged by the message
built at the call site (reboot/scale-up/storage messages per issue handler,
drift and backup-verification messages, and the budget / fetch-failure /
wrong-status messages of the top-level flow). -/
inductive RdsNote
  | fetchFailed
  | maxAttemptsReached
  | perfRebooted
  | noActionStatus (st : String)
  | cpuScaledUp
  | cpuRebooted
  | storageIncreased (cur new : Nat)
  | storageManual
  | connectionsRebooted
  | memoryScaledUp
  | memoryRebooted
  | replicaRebooted
  | ioScaledUpNote
  | ioRebootedNote
  | driftDetected (ds : List RdsFinding)
  | cannotFixStatus (st : String)
  | healingReport (acts : List RdsHealAct)
  | backupsNotEnabled
  | noSnapshotsFound
  | snapshotNotAvailable (id st : String)
  | snapshotTooOld (id : String)
  | backupOk (id : String)
  | backupError
deriving DecidableEq

/-- Result of one RDS lambda run. -/
structure RdsRun where
  status : Nat
  body : String
  calls : List RdsCall
  notes : List RdsNote
deriving DecidableEq

/-- `determine_event_type` of `rds_healing.py`. -/
def rdsDetermineEventType (e : TriggerEvent) : String :=
  if e.detailType = some "CloudWatch Alarm State Change" then "performance_issue"
  else "config_drift"

/-- `get_healing_attempts` of `rds_healing.py`: the tag read
(`list_tags_for_resource`) is fallible; on a read error the function
returns 0 rather than propagating; otherwise the first `HealingAttempts`
tag is parsed, with 0 on absence or parse failure. -/
def rdsGetHealingAttempts (tagsResult : Except Unit (List (String × String))) : Int :=
  match tagsResult with
  | .error _ => 0
  | .ok tags =>
    match tags.find? (fun t => t.1 == "HealingAttempts") with
    | some t => (parseIntL t.2).getD 0
    | none => 0

/-- Family rank table `{'t': 1, 'm': 2, 'r': 3, 'x': 4}` of
`is_instance_class_larger` (`none` = key absent from the dict). -/
def familyRank (f : String) : Option Nat :=
  if f = "t" then some 1
  else if f = "m" then some 2
  else if f = "r" then some 3
  else if f = "x" then some 4
  else none

/-- Size rank table of `is_instance_class_larger`. -/
def sizeRank (s : String) : Option Nat :=
  if s = "nano" then some 1
  else if s = "micro" then some 2
  else if s = "small" then some 3
  else if s = "medium" then some 4
  else if s = "large" then some 5
  else if s = "xlarge" then some 6
  else if s = "2xlarge" then some 7
  else if s = "4xlarge" then some 8
  else if s = "8xlarge" then some 9
  else if s = "16xlarge" then some 10
  else none

/-- `int(size.replace('xlarge','')) if size != 'xlarge' else 1`, with
`none` for the `ValueError` case. -/
def xlargeNum (s : String) : Option Int :=
  if s = "xlarge" then some 1 else parseIntL (strRemoveAll s "xlarge")

/-- The size-comparison tail of `is_instance_class_larger`: the size-rank
table when both sizes are listed, then the numeric `Nxlarge` comparison,
then the default `False`. -/
def sizeCmpTail (size1 size2 : String) : Bool :=
  match sizeRank size1, sizeRank size2 with
  | some r1, some r2 => r2 < r1
  | _, _ =>
    if strEndsWith size1 "xlarge" && strEndsWith size2 "xlarge" then
      match xlargeNum size1, xlargeNum size2 with
      | some n1, some n2 => n2 < n1
      | _, _ => false
    else false

/-- `is_instance_class_larger` of `rds_healing.py`: split both class names
on `.`, require at least three parts, take parts[1] as the family and
parts[2] as the size, compare family ranks when both are in the table
(falling through on a tie), else compare sizes. -/
def is_instance_class_larger (class1 class2 : String) : Bool :=
  let parts1 := strSplitDot class1
  let parts2 := strSplitDot class2
  if parts1.length < 3 ∨ parts2.length < 3 then false
  else
    let family1 := parts1.getD 1 ""
    let size1 := parts1.getD 2 ""
    let family2 := parts2.getD 1 ""
    let size2 := parts2.getD 2 ""
    match familyRank family1, familyRank family2 with
    | some f1, some f2 =>
      if f2 < f1 then true
      else if f1 < f2 then false
      else sizeCmpTail size1 size2
    | _, _ => sizeCmpTail size1 size2

/-- The shared reboot fallback used by `handle_performance_issue` and the
cpu/memory/io handlers of `rds_healing.py`, parameterised by the notes its
call sites produce. -/
def rdsRebootRun (ops : RdsOps) (okNote : RdsNote) (okBody failBody : String) : RdsRun :=
  if ops.rebootOk then ⟨200, okBody, [.rebootDb], [okNote]⟩
  else ⟨500, failBody, [.rebootDb], []⟩

/-- `handle_cpu_issue` of `rds_healing.py`: scale back up to the original
class when the current class differs and the original is larger under
`is_instance_class_larger`, falling back to a reboot on scale failure or
when no scale-up applies. -/
def rdsHandleCpuIssue (env : RdsEnv) (ops : RdsOps) (inst : RdsInstance) : RdsRun :=
  if inst.instanceClass ≠ env.originalInstanceClass ∧
      is_instance_class_larger env.originalInstanceClass inst.instanceClass then
    if ops.modifyClassOk then
      ⟨200, "DB instance scaling initiated", [.modifyDbClass env.originalInstanceClass],
        [.cpuScaledUp]⟩
    else
      let r := rdsRebootRun ops .cpuRebooted "DB instance reboot initiated"
        "Failed to heal DB instance"
      { r with calls := RdsCall.modifyDbClass env.originalInstanceClass :: r.calls }
  else
    rdsRebootRun ops .cpuRebooted "DB instance reboot initiated" "Failed to heal DB instance"

/-- `handle_storage_issue` of `rds_healing.py`. `current * 12 / 10` in `Nat`
is the value of Python's `int(current_allocated_storage * 1.2)` (truncation
of 1.2 times the current size) for the storage sizes in range. -/
def rdsHandleStorageIssue (env : RdsEnv) (ops : RdsOps) (inst : RdsInstance) : RdsRun :=
  let cur := inst.allocatedStorage
  if cur < env.originalAllocatedStorage then
    if ops.modifyStorageOk then
      ⟨200, "DB instance storage increase initiated",
        [.modifyDbStorage env.originalAllocatedStorage],
        [.storageIncreased cur env.originalAllocatedStorage]⟩
    else
      ⟨200, "Manual intervention required for storage issue",
        [.modifyDbStorage env.originalAllocatedStorage], [.storageManual]⟩
  else if cur = env.originalAllocatedStorage then
    let newStorage := cur * 12 / 10
    if ops.modifyStorageOk then
      ⟨200, "DB instance storage increase initiated", [.modifyDbStorage newStorage],
        [.storageIncreased cur newStorage]⟩
    else
      ⟨200, "Manual intervention required for storage issue",
        [.modifyDbStorage newStorage], [.storageManual]⟩
  else
    ⟨200, "Manual intervention required for storage issue", [], [.storageManual]⟩

/-- `handle_memory_issue` of `rds_healing.py` (same shape as the cpu
handler, with its own messages). -/
def rdsHandleMemoryIssue (env : RdsEnv) (ops : RdsOps) (inst : RdsInstance) : RdsRun :=
  if inst.instanceClass ≠ env.originalInstanceClass ∧
      is_instance_class_larger env.originalInstanceClass inst.instanceClass then
    if ops.modifyClassOk then
      ⟨200, "DB instance scaling initiated", [.modifyDbClass env.originalInstanceClass],
        [.memoryScaledUp]⟩
    else
      let r := rdsRebootRun ops .memoryRebooted "DB instance reboot initiated"
        "Failed to heal DB instance"
      { r with calls := RdsCall.modifyDbClass env.originalInstanceClass :: r.calls }
  else
    rdsRebootRun ops .memoryRebooted "DB instance reboot initiated" "Failed to heal DB instance"

/-- `handle_io_issue` of `rds_healing.py` (same shape as the cpu handler,
with its own messages). -/
def rdsHandleIoIssue (env : RdsEnv) (ops : RdsOps) (inst : RdsInstance) : RdsRun :=
  if inst.instanceClass ≠ env.originalInstanceClass ∧
      is_instance_class_larger env.originalInstanceClass inst.instanceClass then
    if ops.modifyClassOk then
      ⟨200, "DB instance scaling initiated", [.modifyDbClass env.originalInstanceClass],
        [.ioScaledUpNote]⟩
    else
      let r := rdsRebootRun ops .ioRebootedNote "DB instance reboot initiated"
        "Failed to heal DB instance"
      { r with calls := RdsCall.modifyDbClass env.originalInstanceClass :: r.calls }
  else
    rdsRebootRun ops .ioRebootedNote "DB instance reboot initiated" "Failed to heal DB instance"

/-- `handle_performance_issue` of `rds_healing.py`: increments the attempt
counter first, then (when the instance is available) dispatches on
substrings of the lowercased alarm name, with a plain reboot as the
default; a non-available status only notifies. -/
def rdsHandlePerformanceIssue (env : RdsEnv) (ops : RdsOps) (inst : RdsInstance)
    (event : TriggerEvent) (attempts : Int) : RdsRun :=
  let base : RdsRun :=
    if inst.status = "available" then
      let dispatch : RdsRun :=
        match event.alarmName with
        | some nm =>
          let lower := strLower nm
          if strContains lower "cpu-utilization" then rdsHandleCpuIssue env ops inst
          else if strContains lower "free-storage-space" then rdsHandleStorageIssue env ops inst
          else if strContains lower "database-connections" then
            rdsRebootRun ops .connectionsRebooted "DB instance reboot initiated"
              "Failed to heal DB instance"
          else if strContains lower "memory" then rdsHandleMemoryIssue env ops inst
          else if strContains lower "replica-lag" then
            rdsRebootRun ops .replicaRebooted "DB replica reboot initiated"
              "Failed to heal DB replica"
          else if strContains lower "io-utilization" then rdsHandleIoIssue env ops inst
          else
            rdsRebootRun ops .perfRebooted "DB instance reboot initiated"
              "Failed to heal DB instance"
        | none =>
          rdsRebootRun ops .perfRebooted "DB instance reboot initiated"
            "Failed to heal DB instance"
      dispatch
    else
      ⟨200, "No healing action taken", [], [.noActionStatus inst.status]⟩
  { base with calls := RdsCall.addTags (attempts + 1) :: base.calls }

/-- The drift findings computed by the RDS `handle_config_drift`, in
source order of the checks: instance class, allocated storage, engine
version, each by exact equality. -/
def rdsDriftFindings (env : RdsEnv) (inst : RdsInstance) : List RdsFinding :=
  (if inst.instanceClass ≠ env.originalInstanceClass then
    [RdsFinding.classDrift inst.instanceClass env.originalInstanceClass] else []) ++
  (if inst.allocatedStorage ≠ env.originalAllocatedStorage then
    [RdsFinding.storageDrift inst.allocatedStorage env.originalAllocatedStorage] else []) ++
  (if inst.engineVersion ≠ env.originalEngineVersion then
    [RdsFinding.engineDrift inst.engineVersion env.originalEngineVersion] else [])

/-- `handle_config_drift` of `rds_healing.py`: on any drift, the counter is
incremented and the drift notified *before* the availability check; a
non-available instance then returns without remediation. -/
def rdsHandleConfigDrift (env : RdsEnv) (ops : RdsOps) (inst : RdsInstance)
    (attempts : Int) : RdsRun :=
  let fs := rdsDriftFindings env inst
  if fs = [] then
    ⟨200, "No configuration drift detected", [], []⟩
  else
    let incr := RdsCall.addTags (attempts + 1)
    if inst.status ≠ "available" then
      ⟨200, "Cannot fix configuration drift due to instance status", [incr],
        [.driftDetected fs, .cannotFixStatus inst.status]⟩
    else
      let classSeg : List RdsCall × List RdsHealAct :=
        if inst.instanceClass ≠ env.originalInstanceClass then
          if ops.modifyClassOk then
            ([.modifyDbClass env.originalInstanceClass],
              [.changedClass inst.instanceClass env.originalInstanceClass])
          else ([.modifyDbClass env.originalInstanceClass], [.classFixError])
        else ([], [])
      let storSeg : List RdsCall × List RdsHealAct :=
        if inst.allocatedStorage ≠ env.originalAllocatedStorage ∧
            inst.allocatedStorage < env.originalAllocatedStorage then
          if ops.modifyStorageOk then
            ([.modifyDbStorage env.originalAllocatedStorage],
              [.changedStorage inst.allocatedStorage env.originalAllocatedStorage])
          else ([.modifyDbStorage env.originalAllocatedStorage], [.storageFixError])
        else ([], [])
      let engActs := if inst.engineVersion ≠ env.originalEngineVersion then
        [RdsHealAct.engineManual] else []
      ⟨200, "Healing actions applied for configuration drift",
        incr :: (classSeg.1 ++ storSeg.1),
        [.driftDetected fs, .healingReport (classSeg.2 ++ storSeg.2 ++ engActs)]⟩

/-- One automated snapshot as read by `verify_backups` (creation times in
hours; `none` models a missing `SnapshotCreateTime`, which sorts below
every present time like `datetime.min`). -/
structure DbSnapshot where
  id : String
  snapshotStatus : String
  createTime : Option Int
deriving DecidableEq

/-- The inputs of `verify_backups` that come from outside: whether the
`describe_db_snapshots` read succeeds, the snapshots it returns, and the
current time in hours. -/
structure RdsBackupData where
  readOk : Bool
  snapshots : List DbSnapshot
  now : Int
deriving DecidableEq

/-- `a` is strictly newer than `b` under the sort key of `verify_backups`
(missing creation time = `datetime.min`). -/
def snapNewer (a b : DbSnapshot) : Bool :=
  match a.createTime, b.createTime with
  | some x, some y => y < x
  | some _, none => true
  | none, _ => false

/-- The head of the snapshot list sorted newest-first with a stable sort,
computed as the first maximum (a later snapshot replaces the current best
only when strictly newer). -/
def rdsLatestSnapshot (s : DbSnapshot) (rest : List DbSnapshot) : DbSnapshot :=
  rest.foldl (fun best x => if snapNewer x best then x else best) s

/-- `verify_backups` of `rds_healing.py` (reachable only through the dead
`backup_verification` branch of `lambda_handler`). -/
def rdsVerifyBackups (env : RdsEnv) (inst : RdsInstance) (bk : RdsBackupData) : RdsRun :=
  if env.backupVerification = false then
    ⟨200, "Backup verification is disabled", [], []⟩
  else if bk.readOk = false then
    ⟨500, "Backup verification failed", [], [.backupError]⟩
  else if ¬ 0 < inst.backupRetentionPeriod then
    ⟨200, "Automated backups not enabled", [], [.backupsNotEnabled]⟩
  else
    match bk.snapshots with
    | [] => ⟨200, "No automated snapshots found", [], [.noSnapshotsFound]⟩
    | s :: rest =>
      let latest := rdsLatestSnapshot s rest
      if latest.snapshotStatus ≠ "available" then
        ⟨200, "Latest snapshot not available", [],
          [.snapshotNotAvailable latest.id latest.snapshotStatus]⟩
      else
        match latest.createTime with
        | some t =>
          if 24 < bk.now - t then
            ⟨200, "Latest snapshot is too old", [], [.snapshotTooOld latest.id]⟩
          else
            ⟨200, "Backup verification successful", [], [.backupOk latest.id]⟩
        | none => ⟨200, "Backup verification successful", [], [.backupOk latest.id]⟩

/-- `lambda_handler` of `rds_healing.py`. `tagsResult` is the outcome of
the `list_tags_for_resource` read inside `get_healing_attempts`; `details`
is the result of `get_instance_details_with_retry`; `bk` carries the
inputs of the (unreachable) backup-verification branch. -/
def rdsLambdaHandler (env : RdsEnv) (ops : RdsOps) (event : TriggerEvent)
    (tagsResult : Except Unit (List (String × String)))
    (details : Option RdsInstance) (bk : RdsBackupData) : RdsRun :=
  let eventType := rdsDetermineEventType event
  match details with
  | none => ⟨500, "Failed to retrieve instance details", [], [.fetchFailed]⟩
  | some inst =>
    let attempts := rdsGetHealingAttempts tagsResult
    if env.maxHealingAttempts ≤ attempts then
      ⟨429, "Maximum healing attempts reached", [], [.maxAttemptsReached]⟩
    else if eventType = "performance_issue" then
      rdsHandlePerformanceIssue env ops inst event attempts
    else if eventType = "config_drift" then
      rdsHandleConfigDrift env ops inst attempts
    else if eventType = "backup_verification" then
      rdsVerifyBackups env inst bk
    else
      ⟨400, "Unknown event type", [], []⟩

/-! ## Claim theorems -/

/-- C1: for every trigger and every resource whose `HealingAttempts` tag
parses to a value at or above `MAX_HEALING_ATTEMPTS`, both lambda
handlers return the 429 "Maximum healing attempts reached" outcome with
one notification and an empty trace of control-plane mutating calls: the
budget check precedes every guard, drift check and remediation step. -/
theorem claim_C1 (eEnv : Ec2Env) (eOps : Ec2Ops) (eEv : TriggerEvent) (eInst : Ec2Instance)
    (rEnv : RdsEnv) (rOps : RdsOps) (rEv : TriggerEvent)
    (tags : Except Unit (List (String × String))) (rInst : RdsInstance) (bk : RdsBackupData)
    (he : eEnv.maxHealingAttempts ≤ ec2GetHealingAttempts eInst.tags)
    (hr : rEnv.maxHealingAttempts ≤ rdsGetHealingAttempts tags) :
    ec2LambdaHandler eEnv eOps eEv (some eInst) =
      ⟨429, "Maximum healing attempts reached", [], [.maxAttemptsReached]⟩ ∧
    rdsLambdaHandler rEnv rOps rEv tags (some rInst) bk =
      ⟨429, "Maximum healing attempts reached", [], [.maxAttemptsReached]⟩ := by
  constructor
  · simp [ec2LambdaHandler, he]
  · simp [rdsLambdaHandler, hr]

/-- C1 witness: a concrete exhausted budget (tag value "3", cap 3) on both
modules. -/
theorem claim_C1_witness :
    ec2LambdaHandler ⟨3, "ami-a", "t3.large", ["sg-1"], "default"⟩
        ⟨true, true, true, true, true, true⟩ ⟨none, none⟩
        (some ⟨"i-1", "running", "ami-a", "t3.large", ["sg-1"], [("HealingAttempts", "3")]⟩) =
      ⟨429, "Maximum healing attempts reached", [], [.maxAttemptsReached]⟩ ∧
    rdsLambdaHandler ⟨3, "db.t3.micro", 20, "8.0", false⟩ ⟨true, true, true, true⟩
        ⟨none, none⟩ (.ok [("HealingAttempts", "5")])
        (some ⟨"db-1", "available", "db.t3.micro", 20, "8.0", 7⟩) ⟨true, [], 0⟩ =
      ⟨429, "Maximum healing attempts reached", [], [.maxAttemptsReached]⟩ :=
  claim_C1 _ _ _ _ _ _ _ _ _ _ (by decide) (by decide)

/-- C5: the comparator evaluated at the ordering examples of the claim.
`t3.micro < t3.large` fails because two-part class names do not pass the
three-part guard; `t3 < m5 < r5 < x1` family ordering fails even with the
`db.` prefix because the extracted families (`t3`, `m5`, ...) carry the
generation digit and never match the single-letter keys of the family
table, so the family comparison never applies; only the within-family
size ordering (`db.t3.micro < db.t3.large`, `db.r5.2xlarge <
db.r5.4xlarge`) behaves as the claim states. -/
theorem claim_C5_eval :
    is_instance_class_larger "t3.large" "t3.micro" = false ∧
    is_instance_class_larger "db.m5.large" "db.t3.large" = false ∧
    is_instance_class_larger "db.r5.large" "db.m5.large" = false ∧
    is_instance_class_larger "db.x1.large" "db.r5.large" = false ∧
    is_instance_class_larger "db.t3.large" "db.t3.micro" = true ∧
    is_instance_class_larger "db.r5.4xlarge" "db.r5.2xlarge" = true := by
  decide

/-- C10: when the tag read inside `get_healing_attempts` errors, the RDS
module treats the counter as 0 instead of propagating the error; with any
positive cap the budget check then passes regardless of the persisted
counter, the run proceeds to the dispatched handler, and on a drift check
with class drift it goes on to mutate (the attempt-increment tag write is
issued). -/
theorem claim_C10 (env : RdsEnv) (ops : RdsOps) (ev : TriggerEvent)
    (inst : RdsInstance) (bk : RdsBackupData)
    (hmax : 1 ≤ env.maxHealingAttempts) :
    rdsGetHealingAttempts (Except.error ()) = 0 ∧
    rdsLambdaHandler env ops ev (Except.error ()) (some inst) bk =
      (if ev.detailType = some "CloudWatch Alarm State Change" then
        rdsHandlePerformanceIssue env ops inst ev 0
      else rdsHandleConfigDrift env ops inst 0) ∧
    (ev.detailType ≠ some "CloudWatch Alarm State Change" →
      inst.instanceClass ≠ env.originalInstanceClass →
      (rdsLambdaHandler env ops ev (Except.error ()) (some inst) bk).calls.head? =
        some (RdsCall.addTags 1)) := by
  have h0 : rdsGetHealingAttempts (Except.error ()) = 0 := rfl
  refine ⟨h0, ?_, ?_⟩
  · by_cases h : ev.detailType = some "CloudWatch Alarm State Change"
    · simp [rdsLambdaHandler, rdsDetermineEventType, h, h0, hmax,
        show ¬ (env.maxHealingAttempts ≤ 0) by omega]
    · simp [rdsLambdaHandler, rdsDetermineEventType, h, h0, hmax,
        show ¬ (env.maxHealingAttempts ≤ 0) by omega]
  · intro hdt hclass
    have hfs : rdsDriftFindings env inst ≠ [] := by
      simp [rdsDriftFindings, hclass]
    simp [rdsLambdaHandler, rdsDetermineEventType, hdt, h0, hmax,
      show ¬ (env.maxHealingAttempts ≤ 0) by omega,
      rdsHandleConfigDrift, hfs]
    by_cases hav : inst.status = "available" <;> simp [hav]

/-- C10 witness: tag-read error with cap 3 and class drift on a drift
check: the budget check passes and the increment write is issued. -/
theorem claim_C10_witness :
    rdsGetHealingAttempts (Except.error ()) = 0 ∧
    (rdsLambdaHandler ⟨3, "db.t3.micro", 20, "8.0", false⟩ ⟨true, true, true, true⟩
        ⟨none, none⟩ (Except.error ())
        (some ⟨"db-1", "available", "db.t3.large", 20, "8.0", 7⟩) ⟨true, [], 0⟩).calls.head? =
      some (RdsCall.addTags 1) := by
  have h := claim_C10 ⟨3, "db.t3.micro", 20, "8.0", false⟩ ⟨true, true, true, true⟩
    ⟨none, none⟩ ⟨"db-1", "available", "db.t3.large", 20, "8.0", 7⟩ ⟨true, [], 0⟩ (by decide)
  exact ⟨h.1, h.2.2 (by decide) (by decide)⟩

/-- C4: for a storage alarm (alarm name matching the storage pattern and
none of the earlier patterns) on an available database instance within
budget: current storage strictly below the baseline is resized to exactly
the baseline; storage equal to the baseline is resized to exactly
`current * 12 / 10` (the truncation of `current * 1.2`, a 20% headroom
bump); larger-than-baseline storage issues no resize and the run ends
with the "manual intervention required" outcome. -/
theorem claim_C4 (env : RdsEnv) (ops : RdsOps) (inst : RdsInstance)
    (tags : Except Unit (List (String × String))) (bk : RdsBackupData) (nm : String)
    (hb : rdsGetHealingAttempts tags < env.maxHealingAttempts)
    (hav : inst.status = "available")
    (hcpu : strContains (strLower nm) "cpu-utilization" = false)
    (hsto : strContains (strLower nm) "free-storage-space" = true) :
    (inst.allocatedStorage < env.originalAllocatedStorage →
      (rdsLambdaHandler env ops ⟨some "CloudWatch Alarm State Change", some nm⟩ tags
          (some inst) bk).calls =
        [.addTags (rdsGetHealingAttempts tags + 1),
          .modifyDbStorage env.originalAllocatedStorage]) ∧
    (inst.allocatedStorage = env.originalAllocatedStorage →
      (rdsLambdaHandler env ops ⟨some "CloudWatch Alarm State Change", some nm⟩ tags
          (some inst) bk).calls =
        [.addTags (rdsGetHealingAttempts tags + 1),
          .modifyDbStorage (inst.allocatedStorage * 12 / 10)]) ∧
    (env.originalAllocatedStorage < inst.allocatedStorage →
      (rdsLambdaHandler env ops ⟨some "CloudWatch Alarm State Change", some nm⟩ tags
          (some inst) bk).calls = [.addTags (rdsGetHealingAttempts tags + 1)] ∧
      (rdsLambdaHandler env ops ⟨some "CloudWatch Alarm State Change", some nm⟩ tags
          (some inst) bk).body = "Manual intervention required for storage issue") := by
  have hrun : rdsLambdaHandler env ops ⟨some "CloudWatch Alarm State Change", some nm⟩ tags
      (some inst) bk =
      rdsHandlePerformanceIssue env ops inst ⟨some "CloudWatch Alarm State Change", some nm⟩
        (rdsGetHealingAttempts tags) := by
    simp [rdsLambdaHandler, rdsDetermineEventType, show ¬ (env.maxHealingAttempts ≤
      rdsGetHealingAttempts tags) by omega]
  rw [hrun]
  unfold rdsHandlePerformanceIssue
  simp only [hav, if_pos rfl, hcpu, hsto]
  refine ⟨?_, ?_, ?_⟩
  · intro hlt
    simp [rdsHandleStorageIssue, hlt]
    by_cases hm : ops.modifyStorageOk <;> simp [hm]
  · intro heq
    simp [rdsHandleStorageIssue, heq]
    by_cases hm : ops.modifyStorageOk <;> simp [hm]
  · intro hgt
    simp [rdsHandleStorageIssue, show ¬ (inst.allocatedStorage <
        env.originalAllocatedStorage) by omega,
      show inst.allocatedStorage ≠ env.originalAllocatedStorage by omega]

/-- C4 witness: storage 20 equal to baseline 20 resizes to exactly 24. -/
theorem claim_C4_witness :
    (rdsLambdaHandler ⟨3, "db.t3.micro", 20, "8.0", false⟩ ⟨true, true, true, true⟩
        ⟨some "CloudWatch Alarm State Change", some "rds-free-storage-space-alarm"⟩
        (.ok []) (some ⟨"db-1", "available", "db.t3.micro", 20, "8.0", 7⟩)
        ⟨true, [], 0⟩).calls =
      [.addTags 1, .modifyDbStorage 24] := by
  have h := claim_C4 ⟨3, "db.t3.micro", 20, "8.0", false⟩ ⟨true, true, true, true⟩
    ⟨"db-1", "available", "db.t3.micro", 20, "8.0", 7⟩ (.ok [])
    ⟨true, [], 0⟩ "rds-free-storage-space-alarm" (by decide) rfl (by decide) (by decide)
  exact h.2.1 rfl

/-- C2 counterexample: a database instance in non-available status
("rebooting") under an alarm ends on the no-action path, yet the
`HealingAttempts` counter is written back incremented (the `addTags 1`
tag write) — the increment precedes the availability check, so the
counter is not left unchanged on this deferred path as the claim
states. -/
theorem claim_C2_cex :
    (rdsLambdaHandler ⟨3, "db.t3.micro", 20, "8.0", false⟩ ⟨true, true, true, true⟩
        ⟨some "CloudWatch Alarm State Change", some "cpu-alarm"⟩ (.ok [])
        (some ⟨"db-1", "rebooting", "db.t3.micro", 20, "8.0", 7⟩) ⟨true, [], 0⟩).body =
      "No healing action taken" ∧
    (rdsLambdaHandler ⟨3, "db.t3.micro", 20, "8.0", false⟩ ⟨true, true, true, true⟩
        ⟨some "CloudWatch Alarm State Change", some "cpu-alarm"⟩ (.ok [])
        (some ⟨"db-1", "rebooting", "db.t3.micro", 20, "8.0", 7⟩) ⟨true, [], 0⟩).calls =
      [RdsCall.addTags 1] := by
  decide

/-- C2 amended: a compute instance in a transitional lifecycle state is
deferred with no action and no counter increment; a database instance in
a non-available status also ends with no remediation action (no-action
under an alarm, cannot-fix under a drift check with findings), but there
the `HealingAttempts` counter IS incremented, because the increment
happens before the availability check. -/
theorem claim_C2_amended (eEnv : Ec2Env) (eOps : Ec2Ops) (eEv : TriggerEvent)
    (eInst : Ec2Instance) (rEnv : RdsEnv) (rOps : RdsOps) (rEv : TriggerEvent)
    (tags : Except Unit (List (String × String))) (rInst : RdsInstance) (bk : RdsBackupData)
    (he : ec2GetHealingAttempts eInst.tags < eEnv.maxHealingAttempts)
    (ht : eInst.state ∈ transitionalStates)
    (hr : rdsGetHealingAttempts tags < rEnv.maxHealingAttempts)
    (hav : rInst.status ≠ "available") :
    ec2LambdaHandler eEnv eOps eEv (some eInst) =
      ⟨202, "Healing deferred due to transitional state", [],
        [.transitionalDeferred eInst.state]⟩ ∧
    (rEv.detailType = some "CloudWatch Alarm State Change" →
      rdsLambdaHandler rEnv rOps rEv tags (some rInst) bk =
        ⟨200, "No healing action taken", [.addTags (rdsGetHealingAttempts tags + 1)],
          [.noActionStatus rInst.status]⟩) ∧
    (rEv.detailType ≠ some "CloudWatch Alarm State Change" →
      rdsDriftFindings rEnv rInst ≠ [] →
      rdsLambdaHandler rEnv rOps rEv tags (some rInst) bk =
        ⟨200, "Cannot fix configuration drift due to instance status",
          [.addTags (rdsGetHealingAttempts tags + 1)],
          [.driftDetected (rdsDriftFindings rEnv rInst), .cannotFixStatus rInst.status]⟩) := by
  refine ⟨?_, ?_, ?_⟩
  · simp [ec2LambdaHandler, ht,
      show ¬ (eEnv.maxHealingAttempts ≤ ec2GetHealingAttempts eInst.tags) by omega]
  · intro hdt
    simp [rdsLambdaHandler, rdsDetermineEventType, hdt,
      show ¬ (rEnv.maxHealingAttempts ≤ rdsGetHealingAttempts tags) by omega,
      rdsHandlePerformanceIssue, hav]
  · intro hdt hfs
    simp [rdsLambdaHandler, rdsDetermineEventType, hdt,
      show ¬ (rEnv.maxHealingAttempts ≤ rdsGetHealingAttempts tags) by omega,
      rdsHandleConfigDrift, hfs, hav]

/-- C2 amended witness: a stopping compute instance defers with no calls;
a rebooting database instance increments on both the alarm and the drift
path. -/
theorem claim_C2_amended_witness :
    ec2LambdaHandler ⟨3, "ami-a", "t3.large", ["sg-1"], "default"⟩
        ⟨true, true, true, true, true, true⟩ ⟨none, none⟩
        (some ⟨"i-1", "stopping", "ami-a", "t3.large", ["sg-1"], []⟩) =
      ⟨202, "Healing deferred due to transitional state", [],
        [.transitionalDeferred "stopping"]⟩ ∧
    rdsLambdaHandler ⟨3, "db.t3.micro", 20, "8.0", false⟩ ⟨true, true, true, true⟩
        ⟨some "CloudWatch Alarm State Change", some "cpu-alarm"⟩ (.ok [])
        (some ⟨"db-1", "rebooting", "db.t3.large", 20, "8.0", 7⟩) ⟨true, [], 0⟩ =
      ⟨200, "No healing action taken", [.addTags 1], [.noActionStatus "rebooting"]⟩ ∧
    rdsLambdaHandler ⟨3, "db.t3.micro", 20, "8.0", false⟩ ⟨true, true, true, true⟩
        ⟨none, none⟩ (.ok [])
        (some ⟨"db-1", "rebooting", "db.t3.large", 20, "8.0", 7⟩) ⟨true, [], 0⟩ =
      ⟨200, "Cannot fix configuration drift due to instance status", [.addTags 1],
        [.driftDetected [.classDrift "db.t3.large" "db.t3.micro"],
          .cannotFixStatus "rebooting"]⟩ := by
  refine ⟨?_, ?_, ?_⟩
  · exact (claim_C2_amended ⟨3, "ami-a", "t3.large", ["sg-1"], "default"⟩
      ⟨true, true, true, true, true, true⟩ ⟨none, none⟩
      ⟨"i-1", "stopping", "ami-a", "t3.large", ["sg-1"], []⟩
      ⟨3, "db.t3.micro", 20, "8.0", false⟩ ⟨true, true, true, true⟩ ⟨none, none⟩ (.ok [])
      ⟨"db-1", "rebooting", "db.t3.large", 20, "8.0", 7⟩ ⟨true, [], 0⟩
      (by decide) (by decide) (by decide) (by decide)).1
  · exact (claim_C2_amended ⟨3, "ami-a", "t3.large", ["sg-1"], "default"⟩
      ⟨true, true, true, true, true, true⟩ ⟨none, none⟩
      ⟨"i-1", "stopping", "ami-a", "t3.large", ["sg-1"], []⟩
      ⟨3, "db.t3.micro", 20, "8.0", false⟩ ⟨true, true, true, true⟩
      ⟨some "CloudWatch Alarm State Change", some "cpu-alarm"⟩ (.ok [])
      ⟨"db-1", "rebooting", "db.t3.large", 20, "8.0", 7⟩ ⟨true, [], 0⟩
      (by decide) (by decide) (by decide) (by decide)).2.1 rfl
  · exact (claim_C2_amended ⟨3, "ami-a", "t3.large", ["sg-1"], "default"⟩
      ⟨true, true, true, true, true, true⟩ ⟨none, none⟩
      ⟨"i-1", "stopping", "ami-a", "t3.large", ["sg-1"], []⟩
      ⟨3, "db.t3.micro", 20, "8.0", false⟩ ⟨true, true, true, true⟩ ⟨none, none⟩ (.ok [])
      ⟨"db-1", "rebooting", "db.t3.large", 20, "8.0", 7⟩ ⟨true, [], 0⟩
      (by decide) (by decide) (by decide) (by decide)).2.2 (by decide) (by decide)

/-- C3 counterexample: a drift-check run with one AMI drift finding and an
active `MaintenanceWindow` tag sends only the combined "drift detected
but in maintenance window, skipping remediation" notification; the
aggregated drift-detection notification (the one enumerating the
findings) never fires, so it does not fire before the guard suppresses
remediation as the claim states. -/
theorem claim_C3_cex :
    (ec2LambdaHandler ⟨3, "ami-a", "t3.large", ["sg-1"], "default"⟩
        ⟨true, true, true, true, true, true⟩ ⟨none, none⟩
        (some ⟨"i-1", "running", "ami-b", "t3.large", ["sg-1"],
          [("MaintenanceWindow", "Active")]⟩)).notes = [Ec2Note.maintenanceSkip] ∧
    ec2DriftFindings ⟨3, "ami-a", "t3.large", ["sg-1"], "default"⟩
        ⟨"i-1", "running", "ami-b", "t3.large", ["sg-1"],
          [("MaintenanceWindow", "Active")]⟩ =
      [Ec2Finding.amiDrift "ami-b" "ami-a"] ∧
    Ec2Note.driftDetected [Ec2Finding.amiDrift "ami-b" "ami-a"] ∉
      (ec2LambdaHandler ⟨3, "ami-a", "t3.large", ["sg-1"], "default"⟩
        ⟨true, true, true, true, true, true⟩ ⟨none, none⟩
        (some ⟨"i-1", "running", "ami-b", "t3.large", ["sg-1"],
          [("MaintenanceWindow", "Active")]⟩)).notes := by
  decide

/-- C3 amended: for a drift-check run within budget, outside transitional
states, with at least one drift finding and an active maintenance tag
(case-insensitive match of the `MaintenanceWindow` tag against
"active"), the run sends exactly one notification — the combined message
that drift was detected but remediation is skipped for the maintenance
window (the aggregated per-finding drift notification does not fire) —
returns the deferred-maintenance outcome, performs zero mutating
control-plane calls and does not increment the attempt counter. -/
theorem claim_C3_amended (env : Ec2Env) (ops : Ec2Ops) (ev : TriggerEvent)
    (inst : Ec2Instance)
    (hb : ec2GetHealingAttempts inst.tags < env.maxHealingAttempts)
    (hs : inst.state ∉ transitionalStates)
    (hev : ev.detailType ≠ some "CloudWatch Alarm State Change")
    (hfs : ec2DriftFindings env inst ≠ [])
    (hm : ec2InMaintenance inst.tags = true) :
    ec2LambdaHandler env ops ev (some inst) =
      ⟨200, "Drift remediation skipped due to maintenance window", [],
        [.maintenanceSkip]⟩ := by
  simp [ec2LambdaHandler, ec2DetermineEventType, hev, hs,
    show ¬ (env.maxHealingAttempts ≤ ec2GetHealingAttempts inst.tags) by omega,
    ec2HandleConfigDrift, hfs, hm]

/-- C3 amended witness: the concrete maintenance-window run of the
counterexample, derived from the amended theorem. -/
theorem claim_C3_amended_witness :
    ec2LambdaHandler ⟨3, "ami-a", "t3.large", ["sg-1"], "default"⟩
        ⟨true, true, true, true, true, true⟩ ⟨none, none⟩
        (some ⟨"i-1", "running", "ami-b", "t3.large", ["sg-1"],
          [("MaintenanceWindow", "Active")]⟩) =
      ⟨200, "Drift remediation skipped due to maintenance window", [],
        [.maintenanceSkip]⟩ :=
  claim_C3_amended ⟨3, "ami-a", "t3.large", ["sg-1"], "default"⟩
    ⟨true, true, true, true, true, true⟩ ⟨none, none⟩
    ⟨"i-1", "running", "ami-b", "t3.large", ["sg-1"], [("MaintenanceWindow", "Active")]⟩
    (by decide) (by decide) (by decide) (by decide) (by decide)

/-- C7 counterexample: a running compute instance of type `t3.micro` with
baseline `t3.large` (strictly below baseline under the spec's ordering)
receiving a cpu alarm is simply rebooted — the plan contains no
resize-to-baseline step, refuting the claimed `[resize-to-baseline]`
plan for compute resources. -/
theorem claim_C7_cex :
    (ec2LambdaHandler ⟨3, "ami-a", "t3.large", ["sg-1"], "default"⟩
        ⟨true, true, true, true, true, true⟩
        ⟨some "CloudWatch Alarm State Change", some "cpu-utilization-alarm"⟩
        (some ⟨"i-1", "running", "ami-a", "t3.micro", ["sg-1"], []⟩)).calls =
      [Ec2Call.createTags 1, Ec2Call.rebootInstances] ∧
    (ec2LambdaHandler ⟨3, "ami-a", "t3.large", ["sg-1"], "default"⟩
        ⟨true, true, true, true, true, true⟩
        ⟨some "CloudWatch Alarm State Change", some "cpu-utilization-alarm"⟩
        (some ⟨"i-1", "running", "ami-a", "t3.micro", ["sg-1"], []⟩)).body =
      "Instance reboot initiated" := by
  decide

/-- C7 amended: on an alarm, a running compute instance (default healing
actions, within budget) is rebooted regardless of alarm category or size
class, with `[stop]` as the fallback when the reboot fails; the
resize-to-baseline-with-reboot-fallback behaviour belongs to the
database module: an available database instance with a cpu alarm whose
class differs from the baseline and is smaller under
`is_instance_class_larger` gets `[resize-class-to-baseline]`, and the
reboot fallback only when that resize fails. -/
theorem claim_C7_amended (eEnv : Ec2Env) (eOps : Ec2Ops) (eInst : Ec2Instance)
    (rEnv : RdsEnv) (rOps : RdsOps) (rInst : RdsInstance)
    (tags : Except Unit (List (String × String))) (bk : RdsBackupData) (nm : String)
    (he : ec2GetHealingAttempts eInst.tags < eEnv.maxHealingAttempts)
    (hrun : eInst.state = "running") (hcust : eEnv.customHealingActions = "default")
    (hr : rdsGetHealingAttempts tags < rEnv.maxHealingAttempts)
    (hav : rInst.status = "available")
    (hnm : strContains (strLower nm) "cpu-utilization" = true)
    (hcls : rInst.instanceClass ≠ rEnv.originalInstanceClass)
    (hlarger : is_instance_class_larger rEnv.originalInstanceClass rInst.instanceClass = true) :
    (eOps.rebootOk = true →
      ec2LambdaHandler eEnv eOps ⟨some "CloudWatch Alarm State Change", some nm⟩
          (some eInst) =
        ⟨200, "Instance reboot initiated",
          [.createTags (ec2GetHealingAttempts eInst.tags + 1), .rebootInstances],
          [.rebooted]⟩) ∧
    (eOps.rebootOk = false → eOps.stopOk = true →
      ec2LambdaHandler eEnv eOps ⟨some "CloudWatch Alarm State Change", some nm⟩
          (some eInst) =
        ⟨200, "Instance stop initiated",
          [.createTags (ec2GetHealingAttempts eInst.tags + 1), .rebootInstances,
            .stopInstances],
          [.stoppingAfterFailedReboot]⟩) ∧
    (rOps.modifyClassOk = true →
      rdsLambdaHandler rEnv rOps ⟨some "CloudWatch Alarm State Change", some nm⟩ tags
          (some rInst) bk =
        ⟨200, "DB instance scaling initiated",
          [.addTags (rdsGetHealingAttempts tags + 1),
            .modifyDbClass rEnv.originalInstanceClass],
          [.cpuScaledUp]⟩) ∧
    (rOps.modifyClassOk = false → rOps.rebootOk = true →
      rdsLambdaHandler rEnv rOps ⟨some "CloudWatch Alarm State Change", some nm⟩ tags
          (some rInst) bk =
        ⟨200, "DB instance reboot initiated",
          [.addTags (rdsGetHealingAttempts tags + 1),
            .modifyDbClass rEnv.originalInstanceClass, .rebootDb],
          [.cpuRebooted]⟩) := by
  have hee : ec2LambdaHandler eEnv eOps ⟨some "CloudWatch Alarm State Change", some nm⟩
      (some eInst) =
      ec2HandleStatusCheckFailure eEnv eOps eInst (ec2GetHealingAttempts eInst.tags) := by
    simp [ec2LambdaHandler, ec2DetermineEventType, hrun, transitionalStates,
      show ¬ (eEnv.maxHealingAttempts ≤ ec2GetHealingAttempts eInst.tags) by omega]
  have hrr : rdsLambdaHandler rEnv rOps ⟨some "CloudWatch Alarm State Change", some nm⟩ tags
      (some rInst) bk =
      rdsHandlePerformanceIssue rEnv rOps rInst
        ⟨some "CloudWatch Alarm State Change", some nm⟩ (rdsGetHealingAttempts tags) := by
    simp [rdsLambdaHandler, rdsDetermineEventType,
      show ¬ (rEnv.maxHealingAttempts ≤ rdsGetHealingAttempts tags) by omega]
  refine ⟨?_, ?_, ?_, ?_⟩
  · intro hrb
    rw [hee]
    simp [ec2HandleStatusCheckFailure, hrun, hcust, hrb]
  · intro hrb hst
    rw [hee]
    simp [ec2HandleStatusCheckFailure, hrun, hcust, hrb, hst]
  · intro hm
    rw [hrr]
    simp [rdsHandlePerformanceIssue, hav, hnm, rdsHandleCpuIssue, hcls, hlarger, hm]
  · intro hm hrb
    rw [hrr]
    simp [rdsHandlePerformanceIssue, hav, hnm, rdsHandleCpuIssue, hcls, hlarger, hm,
      rdsRebootRun, hrb]

/-- C7 amended witness: concrete runs exercising the compute reboot path
and the database resize path (class `db.t3.micro` below baseline
`db.t3.large`). -/
theorem claim_C7_amended_witness :
    ec2LambdaHandler ⟨3, "ami-a", "t3.large", ["sg-1"], "default"⟩
        ⟨true, true, true, true, true, true⟩
        ⟨some "CloudWatch Alarm State Change", some "cpu-utilization-alarm"⟩
        (some ⟨"i-1", "running", "ami-a", "t3.micro", ["sg-1"], []⟩) =
      ⟨200, "Instance reboot initiated", [.createTags 1, .rebootInstances], [.rebooted]⟩ ∧
    rdsLambdaHandler ⟨3, "db.t3.large", 20, "8.0", false⟩ ⟨true, true, true, true⟩
        ⟨some "CloudWatch Alarm State Change", some "cpu-utilization-alarm"⟩ (.ok [])
        (some ⟨"db-1", "available", "db.t3.micro", 20, "8.0", 7⟩) ⟨true, [], 0⟩ =
      ⟨200, "DB instance scaling initiated", [.addTags 1, .modifyDbClass "db.t3.large"],
        [.cpuScaledUp]⟩ := by
  have h := claim_C7_amended ⟨3, "ami-a", "t3.large", ["sg-1"], "default"⟩
    ⟨true, true, true, true, true, true⟩
    ⟨"i-1", "running", "ami-a", "t3.micro", ["sg-1"], []⟩
    ⟨3, "db.t3.large", 20, "8.0", false⟩ ⟨true, true, true, true⟩
    ⟨"db-1", "available", "db.t3.micro", 20, "8.0", 7⟩ (.ok []) ⟨true, [], 0⟩
    "cpu-utilization-alarm" (by decide) rfl rfl (by decide) rfl (by decide) (by decide)
    (by decide)
  exact ⟨h.1 rfl, h.2.2.1 rfl⟩

/-! Helper lemmas shared by several claim theorems. -/

/-- Permuted lists are equal as sets under the embedded `set(..) == set(..)`
comparison. -/
theorem sameSet_of_perm {xs ys : List String} (h : xs.Perm ys) : sameSet xs ys = true := by
  simp only [sameSet, Bool.and_eq_true, List.all_eq_true]
  refine ⟨fun x hx => ?_, fun y hy => ?_⟩
  · simpa using h.mem_iff.mp hx
  · simpa using h.mem_iff.mpr hy

/-- The EC2 classifier returns one of exactly two intents. -/
theorem ec2DetermineEventType_cases (ev : TriggerEvent) :
    ec2DetermineEventType ev = "status_check_failure" ∨
    ec2DetermineEventType ev = "config_drift" := by
  unfold ec2DetermineEventType
  split_ifs <;> simp

/-- The RDS classifier returns one of exactly two intents. -/
theorem rdsDetermineEventType_cases (ev : TriggerEvent) :
    rdsDetermineEventType ev = "performance_issue" ∨
    rdsDetermineEventType ev = "config_drift" := by
  unfold rdsDetermineEventType
  split_ifs <;> simp

/-- No branch of the custom-healing handler produces status 400. -/
theorem ec2ApplyCustomHealing_status_ne (env : Ec2Env) (ops : Ec2Ops) :
    (ec2ApplyCustomHealing env ops).status ≠ 400 := by
  unfold ec2ApplyCustomHealing
  split_ifs <;> simp

/-- No branch of the status-check-failure handler produces status 400. -/
theorem ec2HandleStatusCheckFailure_status_ne (env : Ec2Env) (ops : Ec2Ops)
    (inst : Ec2Instance) (a : Int) :
    (ec2HandleStatusCheckFailure env ops inst a).status ≠ 400 := by
  unfold ec2HandleStatusCheckFailure
  split_ifs <;> simp [ec2ApplyCustomHealing_status_ne env ops]

/-- Every branch of the EC2 drift handler returns status 200. -/
theorem ec2HandleConfigDrift_status (env : Ec2Env) (ops : Ec2Ops)
    (inst : Ec2Instance) (a : Int) :
    (ec2HandleConfigDrift env ops inst a).status = 200 := by
  unfold ec2HandleConfigDrift
  split_ifs <;> simp [apply_ite Ec2Run.status]

/-- No branch of the shared RDS reboot fallback produces status 400. -/
theorem rdsRebootRun_status_ne (ops : RdsOps) (n : RdsNote) (b1 b2 : String) :
    (rdsRebootRun ops n b1 b2).status ≠ 400 := by
  unfold rdsRebootRun
  split_ifs <;> simp

/-- No branch of the cpu handler produces status 400. -/
theorem rdsHandleCpuIssue_status_ne (env : RdsEnv) (ops : RdsOps) (inst : RdsInstance) :
    (rdsHandleCpuIssue env ops inst).status ≠ 400 := by
  unfold rdsHandleCpuIssue
  split_ifs <;> simp [rdsRebootRun_status_ne]

/-- No branch of the storage handler produces status 400. -/
theorem rdsHandleStorageIssue_status_ne (env : RdsEnv) (ops : RdsOps) (inst : RdsInstance) :
    (rdsHandleStorageIssue env ops inst).status ≠ 400 := by
  unfold rdsHandleStorageIssue
  split_ifs <;> simp [apply_ite RdsRun.status]

/-- No branch of the memory handler produces status 400. -/
theorem rdsHandleMemoryIssue_status_ne (env : RdsEnv) (ops : RdsOps) (inst : RdsInstance) :
    (rdsHandleMemoryIssue env ops inst).status ≠ 400 := by
  unfold rdsHandleMemoryIssue
  split_ifs <;> simp [rdsRebootRun_status_ne]

/-- No branch of the io handler produces status 400. -/
theorem rdsHandleIoIssue_status_ne (env : RdsEnv) (ops : RdsOps) (inst : RdsInstance) :
    (rdsHandleIoIssue env ops inst).status ≠ 400 := by
  unfold rdsHandleIoIssue
  split_ifs <;> simp [rdsRebootRun_status_ne]

/-- No branch of the performance handler produces status 400. -/
theorem rdsHandlePerformanceIssue_status_ne (env : RdsEnv) (ops : RdsOps)
    (inst : RdsInstance) (ev : TriggerEvent) (a : Int) :
    (rdsHandlePerformanceIssue env ops inst ev a).status ≠ 400 := by
  obtain ⟨dt, an⟩ := ev
  unfold rdsHandlePerformanceIssue
  cases an <;> dsimp only <;> split_ifs <;>
    simp [rdsHandleCpuIssue_status_ne, rdsHandleStorageIssue_status_ne,
      rdsHandleMemoryIssue_status_ne, rdsHandleIoIssue_status_ne, rdsRebootRun_status_ne]

/-- Every branch of the RDS drift handler returns status 200. -/
theorem rdsHandleConfigDrift_status (env : RdsEnv) (ops : RdsOps)
    (inst : RdsInstance) (a : Int) :
    (rdsHandleConfigDrift env ops inst a).status = 200 := by
  unfold rdsHandleConfigDrift
  split_ifs <;> simp [apply_ite RdsRun.status]

/-- No branch of the backup verifier produces status 400. -/
theorem rdsVerifyBackups_status_ne (env : RdsEnv) (inst : RdsInstance) (bk : RdsBackupData) :
    (rdsVerifyBackups env inst bk).status ≠ 400 := by
  unfold rdsVerifyBackups
  split_ifs <;> try simp
  split
  · simp
  split_ifs <;> try simp
  split <;> first | simp | (split_ifs <;> simp)

/-- The 400 "Unknown event type" outcome of the EC2 handler is dead code:
no input produces it. -/
theorem ec2LambdaHandler_status_ne (env : Ec2Env) (ops : Ec2Ops) (ev : TriggerEvent)
    (details : Option Ec2Instance) :
    (ec2LambdaHandler env ops ev details).status ≠ 400 := by
  unfold ec2LambdaHandler
  cases details with
  | none => simp
  | some inst =>
    dsimp only
    rcases ec2DetermineEventType_cases ev with h | h <;> rw [h] <;> split_ifs <;>
      simp_all [ec2HandleStatusCheckFailure_status_ne, ec2HandleConfigDrift_status]

/-- The 400 "Unknown event type" outcome of the RDS handler is dead code:
no input produces it. -/
theorem rdsLambdaHandler_status_ne (env : RdsEnv) (ops : RdsOps) (ev : TriggerEvent)
    (tags : Except Unit (List (String × String))) (details : Option RdsInstance)
    (bk : RdsBackupData) :
    (rdsLambdaHandler env ops ev tags details bk).status ≠ 400 := by
  unfold rdsLambdaHandler
  cases details with
  | none => simp
  | some inst =>
    dsimp only
    rcases rdsDetermineEventType_cases ev with h | h <;> rw [h] <;> split_ifs <;>
      simp_all [rdsHandlePerformanceIssue_status_ne, rdsHandleConfigDrift_status,
        rdsVerifyBackups_status_ne]

/-- C6 counterexample: on a compute instance drifted on all three checked
attributes, the findings come out with the image (AMI) finding first and
the network-group finding last — the image check is the first one the
code performs, not the last, refuting the claimed order (size class,
storage, network groups, image last). -/
theorem claim_C6_cex :
    ec2DriftFindings ⟨3, "ami-a", "t3.large", ["sg-1"], "default"⟩
        ⟨"i-1", "running", "ami-b", "t3.micro", ["sg-2"], []⟩ =
      [Ec2Finding.amiDrift "ami-b" "ami-a", Ec2Finding.typeDrift "t3.micro" "t3.large",
        Ec2Finding.sgDrift ["sg-2"] ["sg-1"]] ∧
    (ec2DriftFindings ⟨3, "ami-a", "t3.large", ["sg-1"], "default"⟩
        ⟨"i-1", "running", "ami-b", "t3.micro", ["sg-2"], []⟩).head? =
      some (Ec2Finding.amiDrift "ami-b" "ami-a") := by
  decide

/-- C6 amended: drift detection compares attributes in a fixed source
order — compute: image first, then size class, then network groups;
database: size class, then storage, then engine last — producing the
findings in that order; the network-group comparison is set equality
(insensitive to order), and every other comparison is exact-value
equality. -/
theorem claim_C6_amended (eEnv : Ec2Env) (eInst : Ec2Instance)
    (rEnv : RdsEnv) (rInst : RdsInstance)
    (h1 : eInst.imageId ≠ eEnv.originalAmi)
    (h2 : eInst.instanceType ≠ eEnv.originalInstanceType)
    (h3 : ec2SgGuard eEnv = true)
    (h4 : sameSet eInst.securityGroups eEnv.originalSecurityGroups = false)
    (h5 : rInst.instanceClass ≠ rEnv.originalInstanceClass)
    (h6 : rInst.allocatedStorage ≠ rEnv.originalAllocatedStorage)
    (h7 : rInst.engineVersion ≠ rEnv.originalEngineVersion) :
    ec2DriftFindings eEnv eInst =
      [.amiDrift eInst.imageId eEnv.originalAmi,
        .typeDrift eInst.instanceType eEnv.originalInstanceType,
        .sgDrift eInst.securityGroups eEnv.originalSecurityGroups] ∧
    rdsDriftFindings rEnv rInst =
      [.classDrift rInst.instanceClass rEnv.originalInstanceClass,
        .storageDrift rInst.allocatedStorage rEnv.originalAllocatedStorage,
        .engineDrift rInst.engineVersion rEnv.originalEngineVersion] ∧
    (∀ inst2 : Ec2Instance, inst2.securityGroups.Perm eEnv.originalSecurityGroups →
      ∀ cur orig, Ec2Finding.sgDrift cur orig ∉ ec2DriftFindings eEnv inst2) ∧
    (∀ inst3 : Ec2Instance, inst3.imageId = eEnv.originalAmi →
      ∀ cur orig, Ec2Finding.amiDrift cur orig ∉ ec2DriftFindings eEnv inst3) ∧
    (∀ rInst2 : RdsInstance, rInst2.engineVersion = rEnv.originalEngineVersion →
      ∀ cur orig, RdsFinding.engineDrift cur orig ∉ rdsDriftFindings rEnv rInst2) := by
  refine ⟨?_, ?_, ?_, ?_, ?_⟩
  · simp [ec2DriftFindings, h1, h2, h3, h4]
  · simp [rdsDriftFindings, h5, h6, h7]
  · intro inst2 hperm cur orig
    simp only [ec2DriftFindings, sameSet_of_perm hperm]
    split_ifs <;> simp_all
  · intro inst3 himg cur orig
    simp only [ec2DriftFindings, himg, ne_eq, not_true_eq_false]
    split_ifs <;> simp_all
  · intro rInst2 heng cur orig
    simp only [rdsDriftFindings, heng, ne_eq, not_true_eq_false]
    split_ifs <;> simp_all

/-- C6 amended witness: concrete all-drifted snapshots, one permuted (and
one equal-image, one equal-engine) snapshot drawing no corresponding
finding. -/
theorem claim_C6_amended_witness :
    ec2DriftFindings ⟨3, "ami-a", "t3.large", ["sg-1"], "default"⟩
        ⟨"i-1", "running", "ami-b", "t3.micro", ["sg-2"], []⟩ =
      [.amiDrift "ami-b" "ami-a", .typeDrift "t3.micro" "t3.large",
        .sgDrift ["sg-2"] ["sg-1"]] ∧
    rdsDriftFindings ⟨3, "db.t3.micro", 20, "8.0", false⟩
        ⟨"db-1", "available", "db.t3.large", 30, "9.0", 7⟩ =
      [.classDrift "db.t3.large" "db.t3.micro", .storageDrift 30 20,
        .engineDrift "9.0" "8.0"] ∧
    Ec2Finding.sgDrift ["sg-2"] ["sg-1"] ∉
      ec2DriftFindings ⟨3, "ami-a", "t3.large", ["sg-1"], "default"⟩
        ⟨"i-2", "running", "ami-b", "t3.micro", ["sg-1"], []⟩ ∧
    Ec2Finding.amiDrift "ami-b" "ami-a" ∉
      ec2DriftFindings ⟨3, "ami-a", "t3.large", ["sg-1"], "default"⟩
        ⟨"i-3", "running", "ami-a", "t3.micro", ["sg-2"], []⟩ ∧
    RdsFinding.engineDrift "9.0" "8.0" ∉
      rdsDriftFindings ⟨3, "db.t3.micro", 20, "8.0", false⟩
        ⟨"db-2", "available", "db.t3.large", 30, "8.0", 7⟩ := by
  have h := claim_C6_amended ⟨3, "ami-a", "t3.large", ["sg-1"], "default"⟩
    ⟨"i-1", "running", "ami-b", "t3.micro", ["sg-2"], []⟩
    ⟨3, "db.t3.micro", 20, "8.0", false⟩ ⟨"db-1", "available", "db.t3.large", 30, "9.0", 7⟩
    (by decide) (by decide) (by decide) (by decide) (by decide) (by decide) (by decide)
  exact ⟨h.1, h.2.1,
    h.2.2.1 ⟨"i-2", "running", "ami-b", "t3.micro", ["sg-1"], []⟩ (by decide) _ _,
    h.2.2.2.1 ⟨"i-3", "running", "ami-a", "t3.micro", ["sg-2"], []⟩ rfl _ _,
    h.2.2.2.2 ⟨"db-2", "available", "db.t3.large", 30, "8.0", 7⟩ rfl _ _⟩

/-- C8 counterexample: a running compute instance under an alarm whose
reboot and stop calls both fail ends with the 500 "Failed to heal
instance" outcome and an empty notification trace — a silent terminal
outcome different from NoDriftDetected, refuting the claim that
NoDriftDetected is the only silent terminal outcome. -/
theorem claim_C8_cex :
    (ec2LambdaHandler ⟨3, "ami-a", "t3.large", ["sg-1"], "default"⟩
        ⟨false, false, true, true, true, true⟩
        ⟨some "CloudWatch Alarm State Change", some "status-alarm"⟩
        (some ⟨"i-1", "running", "ami-a", "t3.large", ["sg-1"], []⟩)).notes = [] ∧
    (ec2LambdaHandler ⟨3, "ami-a", "t3.large", ["sg-1"], "default"⟩
        ⟨false, false, true, true, true, true⟩
        ⟨some "CloudWatch Alarm State Change", some "status-alarm"⟩
        (some ⟨"i-1", "running", "ami-a", "t3.large", ["sg-1"], []⟩)).status = 500 ∧
    (ec2LambdaHandler ⟨3, "ami-a", "t3.large", ["sg-1"], "default"⟩
        ⟨false, false, true, true, true, true⟩
        ⟨some "CloudWatch Alarm State Change", some "status-alarm"⟩
        (some ⟨"i-1", "running", "ami-a", "t3.large", ["sg-1"], []⟩)).body ≠
      "No configuration drift detected" := by
  decide

/-- C8 amended: for every snapshot equal to its baseline on all checked
attributes, drift detection returns the empty sequence and the run
returns the silent NoDriftDetected outcome — no mutating call, no
attempt increment, no notification — on both modules; NoDriftDetected
is not, however, the only silent terminal outcome: the remediation
failure paths (status 500, e.g. reboot and stop both failing on a
running compute instance) are silent as well. -/
theorem claim_C8_amended
    (eEnv : Ec2Env) (eOps : Ec2Ops) (eEv : TriggerEvent) (eInst : Ec2Instance)
    (rEnv : RdsEnv) (rOps : RdsOps) (rEv : TriggerEvent)
    (tags : Except Unit (List (String × String))) (rInst : RdsInstance) (bk : RdsBackupData)
    (eOps2 : Ec2Ops) (eInst2 : Ec2Instance)
    (he : ec2GetHealingAttempts eInst.tags < eEnv.maxHealingAttempts)
    (hs : eInst.state ∉ transitionalStates)
    (heev : eEv.detailType ≠ some "CloudWatch Alarm State Change")
    (hi1 : eInst.imageId = eEnv.originalAmi)
    (hi2 : eInst.instanceType = eEnv.originalInstanceType)
    (hi3 : sameSet eInst.securityGroups eEnv.originalSecurityGroups = true)
    (hr : rdsGetHealingAttempts tags < rEnv.maxHealingAttempts)
    (hrev : rEv.detailType ≠ some "CloudWatch Alarm State Change")
    (hr1 : rInst.instanceClass = rEnv.originalInstanceClass)
    (hr2 : rInst.allocatedStorage = rEnv.originalAllocatedStorage)
    (hr3 : rInst.engineVersion = rEnv.originalEngineVersion)
    (h2b : ec2GetHealingAttempts eInst2.tags < eEnv.maxHealingAttempts)
    (h2run : eInst2.state = "running") (hcust : eEnv.customHealingActions = "default")
    (h2r : eOps2.rebootOk = false) (h2st : eOps2.stopOk = false) :
    ec2DriftFindings eEnv eInst = [] ∧
    ec2LambdaHandler eEnv eOps eEv (some eInst) =
      ⟨200, "No configuration drift detected", [], []⟩ ∧
    rdsDriftFindings rEnv rInst = [] ∧
    rdsLambdaHandler rEnv rOps rEv tags (some rInst) bk =
      ⟨200, "No configuration drift detected", [], []⟩ ∧
    ec2LambdaHandler eEnv eOps2 ⟨some "CloudWatch Alarm State Change", none⟩ (some eInst2) =
      ⟨500, "Failed to heal instance",
        [.createTags (ec2GetHealingAttempts eInst2.tags + 1), .rebootInstances,
          .stopInstances], []⟩ := by
  have hefs : ec2DriftFindings eEnv eInst = [] := by
    simp [ec2DriftFindings, hi1, hi2, hi3]
  have hrfs : rdsDriftFindings rEnv rInst = [] := by
    simp [rdsDriftFindings, hr1, hr2, hr3]
  refine ⟨hefs, ?_, hrfs, ?_, ?_⟩
  · simp [ec2LambdaHandler, ec2DetermineEventType, heev, hs,
      show ¬ (eEnv.maxHealingAttempts ≤ ec2GetHealingAttempts eInst.tags) by omega,
      ec2HandleConfigDrift, hefs]
  · simp [rdsLambdaHandler, rdsDetermineEventType, hrev,
      show ¬ (rEnv.maxHealingAttempts ≤ rdsGetHealingAttempts tags) by omega,
      rdsHandleConfigDrift, hrfs]
  · simp [ec2LambdaHandler, ec2DetermineEventType, h2run, transitionalStates,
      show ¬ (eEnv.maxHealingAttempts ≤ ec2GetHealingAttempts eInst2.tags) by omega,
      ec2HandleStatusCheckFailure, hcust, h2r, h2st]

/-- C8 amended witness: a clean snapshot on each module yields the silent
no-drift run, and the concrete double-failure alarm run is silent with
status 500. -/
theorem claim_C8_amended_witness :
    ec2DriftFindings ⟨3, "ami-a", "t3.large", ["sg-1"], "default"⟩
        ⟨"i-1", "running", "ami-a", "t3.large", ["sg-1"], []⟩ = [] ∧
    ec2LambdaHandler ⟨3, "ami-a", "t3.large", ["sg-1"], "default"⟩
        ⟨true, true, true, true, true, true⟩ ⟨none, none⟩
        (some ⟨"i-1", "running", "ami-a", "t3.large", ["sg-1"], []⟩) =
      ⟨200, "No configuration drift detected", [], []⟩ ∧
    rdsDriftFindings ⟨3, "db.t3.micro", 20, "8.0", false⟩
        ⟨"db-1", "available", "db.t3.micro", 20, "8.0", 7⟩ = [] ∧
    rdsLambdaHandler ⟨3, "db.t3.micro", 20, "8.0", false⟩ ⟨true, true, true, true⟩
        ⟨none, none⟩ (.ok []) (some ⟨"db-1", "available", "db.t3.micro", 20, "8.0", 7⟩)
        ⟨true, [], 0⟩ =
      ⟨200, "No configuration drift detected", [], []⟩ ∧
    ec2LambdaHandler ⟨3, "ami-a", "t3.large", ["sg-1"], "default"⟩
        ⟨false, false, true, true, true, true⟩ ⟨some "CloudWatch Alarm State Change", none⟩
        (some ⟨"i-2", "running", "ami-a", "t3.large", ["sg-1"], []⟩) =
      ⟨500, "Failed to heal instance",
        [.createTags 1, .rebootInstances, .stopInstances], []⟩ :=
  claim_C8_amended ⟨3, "ami-a", "t3.large", ["sg-1"], "default"⟩
    ⟨true, true, true, true, true, true⟩ ⟨none, none⟩
    ⟨"i-1", "running", "ami-a", "t3.large", ["sg-1"], []⟩
    ⟨3, "db.t3.micro", 20, "8.0", false⟩ ⟨true, true, true, true⟩ ⟨none, none⟩ (.ok [])
    ⟨"db-1", "available", "db.t3.micro", 20, "8.0", 7⟩ ⟨true, [], 0⟩
    ⟨false, false, true, true, true, true⟩
    ⟨"i-2", "running", "ami-a", "t3.large", ["sg-1"], []⟩
    (by decide) (by decide) (by decide) rfl rfl (by decide) (by decide) (by decide)
    rfl rfl rfl (by decide) rfl rfl rfl rfl

/-- C9 counterexample: the empty payload — an unrecognized shape under the
claim — does not fail with any classification error: both classifiers
map it to the scheduled drift check and the run proceeds to a drift
check (here reporting no drift), never producing the "unknown event
type" outcome. -/
theorem claim_C9_cex :
    ec2DetermineEventType ⟨none, none⟩ = "config_drift" ∧
    rdsDetermineEventType ⟨none, none⟩ = "config_drift" ∧
    (ec2LambdaHandler ⟨3, "ami-a", "t3.large", ["sg-1"], "default"⟩
        ⟨true, true, true, true, true, true⟩ ⟨none, none⟩
        (some ⟨"i-1", "running", "ami-a", "t3.large", ["sg-1"], []⟩)).body =
      "No configuration drift detected" ∧
    (ec2LambdaHandler ⟨3, "ami-a", "t3.large", ["sg-1"], "default"⟩
        ⟨true, true, true, true, true, true⟩ ⟨none, none⟩
        (some ⟨"i-1", "running", "ami-a", "t3.large", ["sg-1"], []⟩)).body ≠
      "Unknown event type" := by
  decide

/-- C9 amended: event classification maps every payload carrying the
CloudWatch alarm-state-change marker to the alarm intent and every other
payload — recognized or not — to the scheduled drift-check intent; no
classification failure exists, and the handlers' "unknown event type"
(status 400) outcome is unreachable on every input. -/
theorem claim_C9_amended (ev : TriggerEvent) (eEnv : Ec2Env) (eOps : Ec2Ops)
    (eDetails : Option Ec2Instance) (rEnv : RdsEnv) (rOps : RdsOps)
    (tags : Except Unit (List (String × String))) (rDetails : Option RdsInstance)
    (bk : RdsBackupData) :
    (ev.detailType = some "CloudWatch Alarm State Change" →
      ec2DetermineEventType ev = "status_check_failure" ∧
      rdsDetermineEventType ev = "performance_issue") ∧
    (ev.detailType ≠ some "CloudWatch Alarm State Change" →
      ec2DetermineEventType ev = "config_drift" ∧
      rdsDetermineEventType ev = "config_drift") ∧
    (ec2LambdaHandler eEnv eOps ev eDetails).status ≠ 400 ∧
    (rdsLambdaHandler rEnv rOps ev tags rDetails bk).status ≠ 400 := by
  refine ⟨?_, ?_, ec2LambdaHandler_status_ne _ _ _ _, rdsLambdaHandler_status_ne _ _ _ _ _ _⟩
  · intro h
    exact ⟨by simp [ec2DetermineEventType, h], by simp [rdsDetermineEventType, h]⟩
  · intro h
    exact ⟨by simp [ec2DetermineEventType, h], by simp [rdsDetermineEventType, h]⟩

/-- C9 amended witness: the empty payload classifies as a drift check and
neither handler returns status 400 on it. -/
theorem claim_C9_amended_witness :
    ec2DetermineEventType ⟨none, none⟩ = "config_drift" ∧
    rdsDetermineEventType ⟨none, none⟩ = "config_drift" ∧
    (ec2LambdaHandler ⟨3, "ami-a", "t3.large", ["sg-1"], "default"⟩
        ⟨true, true, true, true, true, true⟩ ⟨none, none⟩
        (some ⟨"i-1", "running", "ami-a", "t3.large", ["sg-1"], []⟩)).status ≠ 400 ∧
    (rdsLambdaHandler ⟨3, "db.t3.micro", 20, "8.0", false⟩ ⟨true, true, true, true⟩
        ⟨none, none⟩ (.ok []) (some ⟨"db-1", "available", "db.t3.micro", 20, "8.0", 7⟩)
        ⟨true, [], 0⟩).status ≠ 400 := by
  have h := claim_C9_amended ⟨none, none⟩ ⟨3, "ami-a", "t3.large", ["sg-1"], "default"⟩
    ⟨true, true, true, true, true, true⟩
    (some ⟨"i-1", "running", "ami-a", "t3.large", ["sg-1"], []⟩)
    ⟨3, "db.t3.micro", 20, "8.0", false⟩ ⟨true, true, true, true⟩ (.ok [])
    (some ⟨"db-1", "available", "db.t3.micro", 20, "8.0", 7⟩) ⟨true, [], 0⟩
  exact ⟨(h.2.1 (by decide)).1, (h.2.1 (by decide)).2, h.2.2.1, h.2.2.2⟩

end SelfHealing
